import Mathlib

/-!
Verification of the cart state machine of the hydrogen repository:
a shallow embedding of `cartReducer` from
`packages/hydrogen/src/components/CartProvider/CartProvider.client.tsx`,
together with theorems about its transition table, its optimistic updates
and its error handling.
-/

namespace Hydrogen

/-- Lifecycle phases of the cart state: the five `status` string literals of
the TS `State` tagged union. -/
inductive Status where
  | uninitialized
  | fetching
  | creating
  | idle
  | updating
deriving DecidableEq

/-- JS string of each status literal, as interpolated into thrown error messages. -/
def Status.str : Status → String
  | .uninitialized => "uninitialized"
  | .fetching => "fetching"
  | .creating => "creating"
  | .idle => "idle"
  | .updating => "updating"

/-- Modelled from the spec: a cart attribute key/value pair (the TS attribute
type declaration is not among the examined sources; the reducer never reads
inside it). -/
structure CartAttribute where
  key : String
  value : Option String
deriving DecidableEq

/-- Modelled from the spec: a line item, "a quantity of a purchasable unit in a
cart". The reducer reads `id` and `quantity` and spreads the rest unchanged;
`merchandiseId` stands for those remaining fields. -/
structure CartLine where
  id : String
  quantity : Int
  merchandiseId : String
deriving DecidableEq

/-- Modelled from the spec: "The cart entity carries identity, a list of line
items, attributes, a note, and buyer identity fields" (the TS `Cart` type
declaration is not among the examined sources). The reducer reads only
`lines` and spreads the rest unchanged. -/
structure Cart where
  id : Option String
  lines : List CartLine
  attributes : List CartAttribute
  note : Option String
  buyerIdentityEmail : Option String
deriving DecidableEq

/-- Payload entry of an `updateLineItem` action: the TS `CartLineUpdateInput`
with the two fields the reducer reads; `quantity` is optional there, and
`none` models an absent (undefined) quantity. -/
structure CartLineUpdateInput where
  id : String
  quantity : Option Int
deriving DecidableEq

/-- Cart provider state as the JS object the reducer manipulates: a `status`
tag plus the `cart`, `lastValidCart` and `error` fields, with `none`
standing for a field that is absent (undefined) on the object. -/
structure State where
  status : Status
  cart : Option Cart
  lastValidCart : Option Cart
  error : Option String
deriving DecidableEq

/-- Actions dispatched to `cartReducer`, with exactly the payload fields the
reducer reads (`resolve` carries the server cart, `reject` the error,
`removeLineItem` the line ids, `updateLineItem` the line updates). -/
inductive CartAction where
  | cartFetch
  | cartCreate
  | resolve (cart : Cart)
  | reject (error : String)
  | resetCart
  | addLineItem
  | removeLineItem (lines : List String)
  | updateLineItem (lines : List CartLineUpdateInput)
  | noteUpdate
  | buyerIdentityUpdate
  | cartAttributesUpdate
  | discountCodesUpdate
deriving DecidableEq

/-- JS value of `action.type`, as interpolated into thrown error messages. -/
def CartAction.typeName : CartAction → String
  | .cartFetch => "cartFetch"
  | .cartCreate => "cartCreate"
  | .resolve _ => "resolve"
  | .reject _ => "reject"
  | .resetCart => "resetCart"
  | .addLineItem => "addLineItem"
  | .removeLineItem _ => "removeLineItem"
  | .updateLineItem _ => "updateLineItem"
  | .noteUpdate => "noteUpdate"
  | .buyerIdentityUpdate => "buyerIdentityUpdate"
  | .cartAttributesUpdate => "cartAttributesUpdate"
  | .discountCodesUpdate => "discountCodesUpdate"

/-- The callback the `updateLineItem` case maps over the cart's lines: look
up the first action entry whose id matches the line; when one is found and
its quantity is truthy (present and nonzero), replace the line's quantity,
otherwise return the line unchanged. -/
def applyLineUpdate (lines : List CartLineUpdateInput) (line : CartLine) : CartLine :=
  match lines.find? (fun u => u.id == line.id) with
  | some updatedLine =>
    match updatedLine.quantity with
    | some q => if q ≠ 0 then { line with quantity := q } else line
    | none => line
  | none => line

/-- The error thrown when a case's guard fails and control falls through the
switch: `Cannot dispatch event ($action.type) for current cart state
($state.status)`. -/
def cannotDispatch (state : State) (action : CartAction) : Except String State :=
  Except.error
    ("Cannot dispatch event (" ++ action.typeName ++
      ") for current cart state (" ++ state.status.str ++ ")")

/-- Shallow embedding of `cartReducer` (CartProvider.client.tsx, lines 68-207):
the switch on `action.type`, each case guarded by the current status, every
failed guard falling through to the thrown `cannotDispatch` error. Reading
`.lines` of an absent cart, which in JS would raise a TypeError, is likewise
an `Except.error`. -/
def cartReducer (state : State) (action : CartAction) : Except String State :=
  match action with
  | .cartFetch =>
    if state.status = .uninitialized then
      Except.ok { status := .fetching, cart := none, lastValidCart := none, error := none }
    else cannotDispatch state action
  | .cartCreate =>
    if state.status = .uninitialized then
      Except.ok { status := .creating, cart := none, lastValidCart := none, error := none }
    else cannotDispatch state action
  | .resolve cart =>
    let resolvableStatuses : List Status := [.updating, .fetching, .creating]
    if state.status ∈ resolvableStatuses then
      Except.ok { status := .idle, cart := some cart, lastValidCart := none, error := none }
    else cannotDispatch state action
  | .reject error =>
    if state.status = .fetching ∨ state.status = .creating then
      Except.ok { status := .uninitialized, cart := none, lastValidCart := none,
                  error := some error }
    else if state.status = .updating then
      Except.ok { status := .idle, cart := state.lastValidCart, lastValidCart := none,
                  error := some error }
    else cannotDispatch state action
  | .resetCart =>
    if state.status = .fetching then
      Except.ok { status := .uninitialized, cart := none, lastValidCart := none, error := none }
    else cannotDispatch state action
  | .addLineItem =>
    if state.status = .idle then
      Except.ok { status := .updating, cart := state.cart, lastValidCart := state.cart,
                  error := none }
    else cannotDispatch state action
  | .removeLineItem lines =>
    if state.status = .idle then
      match state.cart with
      | some c =>
        Except.ok { status := .updating,
                    cart := some { c with
                      lines := c.lines.filter (fun l => !(lines.contains l.id)) },
                    lastValidCart := state.cart,
                    error := none }
      | none => Except.error "TypeError: Cannot read properties of undefined (reading 'lines')"
    else cannotDispatch state action
  | .updateLineItem lines =>
    if state.status = .idle then
      match state.cart with
      | some c =>
        Except.ok { status := .updating,
                    cart := some { c with
                      lines := c.lines.map (applyLineUpdate lines) },
                    lastValidCart := state.cart,
                    error := none }
      | none => Except.error "TypeError: Cannot read properties of undefined (reading 'lines')"
    else cannotDispatch state action
  | .noteUpdate =>
    if state.status = .idle then
      Except.ok { status := .updating, cart := state.cart, lastValidCart := state.cart,
                  error := none }
    else cannotDispatch state action
  | .buyerIdentityUpdate =>
    if state.status = .idle then
      Except.ok { status := .updating, cart := state.cart, lastValidCart := state.cart,
                  error := none }
    else cannotDispatch state action
  | .cartAttributesUpdate =>
    if state.status = .idle then
      Except.ok { status := .updating, cart := state.cart, lastValidCart := state.cart,
                  error := none }
    else cannotDispatch state action
  | .discountCodesUpdate =>
    if state.status = .idle then
      Except.ok { status := .updating, cart := state.cart, lastValidCart := state.cart,
                  error := none }
    else cannotDispatch state action

/-- Well-formedness of a state object: the payload fields the TS `State`
tagged union attaches to each phase, and no others, are present.
An `uninitialized` state carries at most an error; `fetching` and `creating`
carry nothing; `idle` carries a cart and possibly an error; `updating`
carries a cart and a lastValidCart and no error. -/
def State.wf (s : State) : Bool :=
  match s.status with
  | .uninitialized => s.cart.isNone && s.lastValidCart.isNone
  | .fetching => s.cart.isNone && s.lastValidCart.isNone && s.error.isNone
  | .creating => s.cart.isNone && s.lastValidCart.isNone && s.error.isNone
  | .idle => s.cart.isSome && s.lastValidCart.isNone
  | .updating => s.cart.isSome && s.lastValidCart.isSome && s.error.isNone

/-- The seven mutating actions: the optimistic cart mutations valid only in
the `idle` phase. -/
def CartAction.isMutating : CartAction → Bool
  | .addLineItem => true
  | .removeLineItem _ => true
  | .updateLineItem _ => true
  | .noteUpdate => true
  | .buyerIdentityUpdate => true
  | .cartAttributesUpdate => true
  | .discountCodesUpdate => true
  | _ => false

/-- The documented transition table: which (status, action) pairs the reducer
permits. -/
def permitted (s : State) (a : CartAction) : Bool :=
  match a with
  | .cartFetch => s.status = .uninitialized
  | .cartCreate => s.status = .uninitialized
  | .resolve _ =>
    s.status = .updating ∨ s.status = .fetching ∨ s.status = .creating
  | .reject _ =>
    s.status = .fetching ∨ s.status = .creating ∨ s.status = .updating
  | .resetCart => s.status = .fetching
  | .addLineItem => s.status = .idle
  | .removeLineItem _ => s.status = .idle
  | .updateLineItem _ => s.status = .idle
  | .noteUpdate => s.status = .idle
  | .buyerIdentityUpdate => s.status = .idle
  | .cartAttributesUpdate => s.status = .idle
  | .discountCodesUpdate => s.status = .idle

/-- A concrete cart used to instantiate the theorems below. -/
def exCart : Cart :=
  { id := some "gid-cart-1",
    lines := [{ id := "line-1", quantity := 2, merchandiseId := "m1" },
              { id := "line-2", quantity := 1, merchandiseId := "m2" }],
    attributes := [{ key := "gift", value := some "yes" }],
    note := some "a note",
    buyerIdentityEmail := some "buyer" }

/-- A concrete uninitialized state. -/
def uninitEx : State :=
  { status := .uninitialized, cart := none, lastValidCart := none, error := none }

/-- A concrete idle state holding `exCart`. -/
def idleEx : State :=
  { status := .idle, cart := some exCart, lastValidCart := none, error := none }

/-- A concrete updating state holding `exCart`. -/
def updatingEx : State :=
  { status := .updating, cart := some exCart, lastValidCart := some exCart, error := none }

/-- A concrete fetching state. -/
def fetchingEx : State :=
  { status := .fetching, cart := none, lastValidCart := none, error := none }

/-- C2: from any `updating` state, a `reject` action returns (rather than
throws) an `idle` state whose cart is the updating state's `lastValidCart`
and whose error is the action's error. -/
theorem reject_updating_rolls_back (s : State) (e : String)
    (h : s.status = Status.updating) :
    cartReducer s (CartAction.reject e) =
      Except.ok { status := Status.idle, cart := s.lastValidCart,
                  lastValidCart := none, error := some e } := by
  simp [cartReducer, h]

/-- Witness for `reject_updating_rolls_back` at a concrete updating state. -/
theorem reject_updating_rolls_back_witness :
    cartReducer updatingEx (CartAction.reject "remote failure") =
      Except.ok { status := Status.idle, cart := some exCart,
                  lastValidCart := none, error := some "remote failure" } :=
  reject_updating_rolls_back updatingEx "remote failure" rfl

/-- C4: from any `updating`, `fetching` or `creating` state, a `resolve`
action carrying a cart returns an `idle` state holding exactly that cart,
with no error and no lastValidCart retained. -/
theorem resolve_replaces_cart (s : State) (c : Cart)
    (h : s.status = Status.updating ∨ s.status = Status.fetching ∨
      s.status = Status.creating) :
    cartReducer s (CartAction.resolve c) =
      Except.ok { status := Status.idle, cart := some c,
                  lastValidCart := none, error := none } := by
  rcases h with h | h | h <;> simp [cartReducer, h]

/-- Witness for `resolve_replaces_cart` at a concrete updating state. -/
theorem resolve_replaces_cart_witness :
    cartReducer updatingEx (CartAction.resolve exCart) =
      Except.ok { status := Status.idle, cart := some exCart,
                  lastValidCart := none, error := none } :=
  resolve_replaces_cart updatingEx exCart (Or.inl rfl)

/-- C10: from a `fetching` or `creating` state, a `reject` action returns an
`uninitialized` state carrying the action's error and no cart: a failure
before a cart exists preserves nothing for display. -/
theorem reject_before_cart_discards (s : State) (e : String)
    (h : s.status = Status.fetching ∨ s.status = Status.creating) :
    cartReducer s (CartAction.reject e) =
      Except.ok { status := Status.uninitialized, cart := none,
                  lastValidCart := none, error := some e } := by
  rcases h with h | h <;> simp [cartReducer, h]

/-- Witness for `reject_before_cart_discards` at a concrete fetching state. -/
theorem reject_before_cart_discards_witness :
    cartReducer fetchingEx (CartAction.reject "network down") =
      Except.ok { status := Status.uninitialized, cart := none,
                  lastValidCart := none, error := some "network down" } :=
  reject_before_cart_discards fetchingEx "network down" (Or.inl rfl)

/-- C7: the reducer is deterministic — equal (state, action) inputs produce
equal results, whether a returned state or a thrown error; and, the
embedding being a pure function over immutable values, no invocation
mutates its input. -/
theorem cartReducer_deterministic (s1 s2 : State) (a1 a2 : CartAction)
    (hs : s1 = s2) (ha : a1 = a2) :
    cartReducer s1 a1 = cartReducer s2 a2 := by
  subst hs
  subst ha
  rfl

/-- Witness for `cartReducer_deterministic` at a concrete input. -/
theorem cartReducer_deterministic_witness :
    cartReducer idleEx CartAction.addLineItem = cartReducer idleEx CartAction.addLineItem :=
  cartReducer_deterministic idleEx idleEx CartAction.addLineItem CartAction.addLineItem rfl rfl

/-- C3: from any `idle` state holding cart `c`, each of the seven mutating
actions returns an `updating` state whose `lastValidCart` is exactly `c`,
preserving the last-known-good cart across the optimistic transition. -/
theorem mutating_preserves_lastValidCart (s : State) (a : CartAction) (c : Cart)
    (h : s.status = Status.idle) (hc : s.cart = some c)
    (hm : a.isMutating = true) :
    (cartReducer s a).isOk = true ∧
      ∀ s', cartReducer s a = Except.ok s' →
        s'.status = Status.updating ∧ s'.lastValidCart = some c := by
  cases a <;> simp [CartAction.isMutating] at hm <;>
    simp [cartReducer, h, hc, Except.isOk, Except.toBool]

/-- Witness for `mutating_preserves_lastValidCart` at a concrete idle state
and a `noteUpdate` action. -/
theorem mutating_preserves_lastValidCart_witness :
    (cartReducer idleEx CartAction.noteUpdate).isOk = true :=
  (mutating_preserves_lastValidCart idleEx CartAction.noteUpdate exCart rfl rfl rfl).1

/-- C5: the reducer preserves well-formedness — starting from a well-formed
state, every returned state again carries exactly the payload its phase
requires (`idle` a cart and possibly an error, `updating` a cart and a
lastValidCart, `fetching` and `creating` nothing, `uninitialized` at most
an error). -/
theorem cartReducer_preserves_wf (s : State) (a : CartAction) (s' : State)
    (hw : s.wf = true) (h : cartReducer s a = Except.ok s') :
    s'.wf = true := by
  rcases s with ⟨st, c, lvc, e⟩
  rcases s' with ⟨st', c', lvc', e'⟩
  cases c <;> cases lvc <;> cases a <;> cases st <;>
    simp_all [cartReducer, State.wf, cannotDispatch] <;>
    (obtain ⟨h1, h2, h3, h4⟩ := h; subst h1 h2 h3 h4; rfl)

/-- Witness for `cartReducer_preserves_wf`: the concrete updating state
reached from `idleEx` by `addLineItem` is well-formed. -/
theorem cartReducer_preserves_wf_witness :
    State.wf { status := Status.updating, cart := some exCart,
               lastValidCart := some exCart, error := none } = true :=
  cartReducer_preserves_wf idleEx CartAction.addLineItem
    { status := Status.updating, cart := some exCart,
      lastValidCart := some exCart, error := none }
    (by decide) rfl

/-- C1: on a well-formed state, every (state, action) pair the transition
table permits returns a state without throwing, and every pair it does not
permit throws the error naming the attempted action type and the current
status. -/
theorem cartReducer_transition_table (s : State) (a : CartAction)
    (hw : s.wf = true) :
    (permitted s a = true → (cartReducer s a).isOk = true) ∧
    (permitted s a = false →
      cartReducer s a = Except.error
        ("Cannot dispatch event (" ++ a.typeName ++
          ") for current cart state (" ++ s.status.str ++ ")")) := by
  rcases s with ⟨st, c, lvc, e⟩
  cases c <;> cases lvc <;> cases a <;> cases st <;>
    simp_all [cartReducer, permitted, cannotDispatch, State.wf, Except.isOk,
      Except.toBool]

/-- Witness for `cartReducer_transition_table`: `cartFetch` is permitted on a
concrete uninitialized state, and on a concrete idle state it throws the
documented message. -/
theorem cartReducer_transition_table_witness :
    (cartReducer uninitEx CartAction.cartFetch).isOk = true ∧
      cartReducer idleEx CartAction.cartFetch =
        Except.error "Cannot dispatch event (cartFetch) for current cart state (idle)" := by
  constructor
  · exact (cartReducer_transition_table uninitEx CartAction.cartFetch (by decide)).1 (by decide)
  · exact (cartReducer_transition_table idleEx CartAction.cartFetch (by decide)).2 (by decide)

/-- C6: the reducer enforces the documented lifecycle order on well-formed
states: `cartFetch` and `cartCreate` succeed exactly from `uninitialized`
and land in `fetching` respectively `creating`; the mutating actions
succeed exactly from `idle` and land in `updating`; and any successful
transition into `updating` came from `idle` via a mutating action. -/
theorem lifecycle_gating (s : State) (hw : s.wf = true) :
    ((cartReducer s CartAction.cartFetch).isOk = true ↔
      s.status = Status.uninitialized) ∧
    (∀ s', cartReducer s CartAction.cartFetch = Except.ok s' →
      s'.status = Status.fetching) ∧
    ((cartReducer s CartAction.cartCreate).isOk = true ↔
      s.status = Status.uninitialized) ∧
    (∀ s', cartReducer s CartAction.cartCreate = Except.ok s' →
      s'.status = Status.creating) ∧
    (∀ a, a.isMutating = true →
      ((cartReducer s a).isOk = true ↔ s.status = Status.idle)) ∧
    (∀ a s', a.isMutating = true → cartReducer s a = Except.ok s' →
      s'.status = Status.updating) ∧
    (∀ a s', cartReducer s a = Except.ok s' → s'.status = Status.updating →
      s.status = Status.idle ∧ a.isMutating = true) := by
  rcases s with ⟨st, c, lvc, e⟩
  refine ⟨?_, ?_, ?_, ?_, ?_, ?_, ?_⟩
  · cases st <;> simp [cartReducer, cannotDispatch, Except.isOk, Except.toBool]
  · intro s' hok
    cases st <;> first
      | (simp [cartReducer, cannotDispatch] at hok; subst hok; rfl)
      | simp [cartReducer, cannotDispatch] at hok
  · cases st <;> simp [cartReducer, cannotDispatch, Except.isOk, Except.toBool]
  · intro s' hok
    cases st <;> first
      | (simp [cartReducer, cannotDispatch] at hok; subst hok; rfl)
      | simp [cartReducer, cannotDispatch] at hok
  · intro a ha
    cases a <;> simp [CartAction.isMutating] at ha <;>
      cases st <;> cases c <;>
        simp_all [cartReducer, cannotDispatch, State.wf, Except.isOk, Except.toBool]
  · intro a s' ha hok
    rcases s' with ⟨st', c', lvc', e'⟩
    cases a <;> simp [CartAction.isMutating] at ha <;>
      cases st <;> cases c <;>
        simp_all [cartReducer, cannotDispatch, State.wf]
  · intro a s' hok hst
    rcases s' with ⟨st', c', lvc', e'⟩
    cases a <;> cases st <;> cases c <;>
      simp_all [cartReducer, cannotDispatch, State.wf, CartAction.isMutating]

/-- Witness for `lifecycle_gating`: `cartFetch` succeeds on a concrete
uninitialized state, `addLineItem` succeeds on a concrete idle state, and
the state it returns there has status `updating`. -/
theorem lifecycle_gating_witness :
    (cartReducer uninitEx CartAction.cartFetch).isOk = true ∧
      (cartReducer idleEx CartAction.addLineItem).isOk = true ∧
      ({ status := Status.updating, cart := some exCart,
         lastValidCart := some exCart, error := none } : State).status =
        Status.updating := by
  refine ⟨?_, ?_, ?_⟩
  · exact (lifecycle_gating uninitEx (by decide)).1.mpr rfl
  · exact ((lifecycle_gating idleEx (by decide)).2.2.2.2.1 CartAction.addLineItem rfl).mpr rfl
  · exact (lifecycle_gating idleEx (by decide)).2.2.2.2.2.1 CartAction.addLineItem
      { status := Status.updating, cart := some exCart,
        lastValidCart := some exCart, error := none } rfl rfl

/-- C8: from an `idle` state holding cart `c`, a `removeLineItem` action
returns an `updating` state whose displayed cart keeps exactly the lines of
`c` whose id is not in the action's list, in their original order, with
every other cart field unchanged, while `lastValidCart` keeps `c`
unfiltered. -/
theorem removeLineItem_optimistic_filter (s : State) (c : Cart) (ids : List String)
    (h : s.status = Status.idle) (hc : s.cart = some c) :
    ∃ c2, cartReducer s (CartAction.removeLineItem ids) =
        Except.ok { status := Status.updating, cart := some c2,
                    lastValidCart := some c, error := none } ∧
      c2.lines = c.lines.filter (fun l => decide (l.id ∉ ids)) ∧
      c2.id = c.id ∧ c2.attributes = c.attributes ∧ c2.note = c.note ∧
      c2.buyerIdentityEmail = c.buyerIdentityEmail := by
  refine ⟨{ c with lines := c.lines.filter (fun l => !(ids.contains l.id)) },
    by simp [cartReducer, h, hc], ?_, rfl, rfl, rfl, rfl⟩
  exact List.filter_congr (fun l _ => by simp)

/-- Witness for `removeLineItem_optimistic_filter` at a concrete idle state. -/
theorem removeLineItem_optimistic_filter_witness :
    (cartReducer idleEx (CartAction.removeLineItem ["line-1"])).isOk = true := by
  obtain ⟨c2, hr, -, -, -, -, -⟩ :=
    removeLineItem_optimistic_filter idleEx exCart ["line-1"] rfl rfl
  simp [hr, Except.isOk, Except.toBool]

/-- The map callback leaves a line unchanged when no action entry names its
id. -/
theorem applyLineUpdate_not_found (ulines : List CartLineUpdateInput)
    (line : CartLine) (h : ∀ u ∈ ulines, u.id ≠ line.id) :
    applyLineUpdate ulines line = line := by
  have hf : ulines.find? (fun u => u.id == line.id) = none :=
    List.find?_eq_none.mpr (fun u hu => by simp [h u hu])
  simp [applyLineUpdate, hf]

/-- The map callback leaves a line unchanged when the matching action entry
has an absent or zero (falsy) quantity. -/
theorem applyLineUpdate_falsy (ulines : List CartLineUpdateInput)
    (line : CartLine) (u : CartLineUpdateInput)
    (hf : ulines.find? (fun v => v.id == line.id) = some u)
    (hq : u.quantity = none ∨ u.quantity = some 0) :
    applyLineUpdate ulines line = line := by
  rcases hq with hq | hq <;> simp [applyLineUpdate, hf, hq]

/-- A line the map callback changed was named by an action entry with a
truthy quantity, and only its quantity changed. -/
theorem applyLineUpdate_changed (ulines : List CartLineUpdateInput)
    (line : CartLine) (h : applyLineUpdate ulines line ≠ line) :
    ∃ u, u ∈ ulines ∧ u.id = line.id ∧ ∃ q, u.quantity = some q ∧ q ≠ 0 ∧
      applyLineUpdate ulines line = { line with quantity := q } := by
  cases hf : ulines.find? (fun v => v.id == line.id) with
  | none => simp [applyLineUpdate, hf] at h
  | some u =>
    cases hq : u.quantity with
    | none => simp [applyLineUpdate, hf, hq] at h
    | some q =>
      by_cases hq0 : q = 0
      · simp [applyLineUpdate, hf, hq, hq0] at h
      · refine ⟨u, List.mem_of_find?_eq_some hf, ?_, q, hq, hq0, ?_⟩
        · have hp := List.find?_some hf
          simpa using hp
        · simp [applyLineUpdate, hf, hq, hq0]

/-- C9: from an `idle` state holding cart `c`, an `updateLineItem` action
returns an `updating` state whose displayed cart has the same number of
lines as `c`, where a line not named by any action entry is unchanged, a
line whose (first) matching entry has quantity 0 or no quantity is entirely
unchanged, and a line that did change was named by an entry with a nonzero
quantity and had exactly its quantity replaced by it. -/
theorem updateLineItem_optimistic (s : State) (c : Cart)
    (ulines : List CartLineUpdateInput)
    (h : s.status = Status.idle) (hc : s.cart = some c) :
    ∃ c2, cartReducer s (CartAction.updateLineItem ulines) =
        Except.ok { status := Status.updating, cart := some c2,
                    lastValidCart := some c, error := none } ∧
      c2.lines.length = c.lines.length ∧
      ∀ i, (hi : i < c.lines.length) → (hi2 : i < c2.lines.length) →
        ((∀ u ∈ ulines, u.id ≠ (c.lines.get ⟨i, hi⟩).id) →
          c2.lines.get ⟨i, hi2⟩ = c.lines.get ⟨i, hi⟩) ∧
        (∀ u, ulines.find? (fun v => v.id == (c.lines.get ⟨i, hi⟩).id) = some u →
          u.quantity = none ∨ u.quantity = some 0 →
          c2.lines.get ⟨i, hi2⟩ = c.lines.get ⟨i, hi⟩) ∧
        (c2.lines.get ⟨i, hi2⟩ ≠ c.lines.get ⟨i, hi⟩ →
          ∃ u, u ∈ ulines ∧ u.id = (c.lines.get ⟨i, hi⟩).id ∧
            ∃ q, u.quantity = some q ∧ q ≠ 0 ∧
              c2.lines.get ⟨i, hi2⟩ =
                { c.lines.get ⟨i, hi⟩ with quantity := q }) := by
  refine ⟨{ c with lines := c.lines.map (applyLineUpdate ulines) },
    by simp [cartReducer, h, hc], by simp, ?_⟩
  intro i hi hi2
  have hmap : ({ c with lines := c.lines.map (applyLineUpdate ulines) } : Cart).lines.get ⟨i, hi2⟩
      = applyLineUpdate ulines (c.lines.get ⟨i, hi⟩) := by
    simp
  refine ⟨?_, ?_, ?_⟩
  · intro hnone
    rw [hmap]
    exact applyLineUpdate_not_found ulines _ hnone
  · intro u hf hq
    rw [hmap]
    exact applyLineUpdate_falsy ulines _ u hf hq
  · intro hne
    rw [hmap] at hne ⊢
    exact applyLineUpdate_changed ulines _ hne

/-- Witness for `updateLineItem_optimistic` at a concrete idle state and a
single-entry update. -/
theorem updateLineItem_optimistic_witness :
    (cartReducer idleEx
      (CartAction.updateLineItem [{ id := "line-1", quantity := some 5 }])).isOk = true := by
  obtain ⟨c2, hr, -, -⟩ :=
    updateLineItem_optimistic idleEx exCart [{ id := "line-1", quantity := some 5 }] rfl rfl
  simp [hr, Except.isOk, Except.toBool]

end Hydrogen
